import Mathlib

/-!
Shallow embedding of the criteria-evaluation and test-harness engine of the
cckp-toolkit-workflow repository: `src/bin/analyze_joss.py` (metric lookup,
README keyword scanning, per-criterion scoring, aggregation) and
`src/bin/run_tests.py` (ecosystem detection, python/node test adapters,
dispatch).  Python dicts with fixed string keys are embedded as association
lists, numeric scores and pass rates as rationals, the file system as the
list of names present in the repository root, and child processes as
explicit inputs (captured output lines and exit code).
-/

namespace CCKP

/-! ### Basic string machinery

Python's `phrase in content` substring test is embedded as `occursIn` on the
character lists of the strings, and `str.lower()` as a per-character map. -/

/-- Character-list prefix test, mirroring `List.isPrefixOf`, written out so its
correspondence lemma is self-contained. -/
def isPrefixC : List Char → List Char → Bool
  | [], _ => true
  | _ :: _, [] => false
  | a :: as, b :: bs => a == b && isPrefixC as bs

/-- Substring occurrence test on character lists: Python's `pat in s`. -/
def occursIn (pat : List Char) : List Char → Bool
  | [] => pat.isEmpty
  | c :: t => isPrefixC pat (c :: t) || occursIn pat t

/-- Python `pat in content` on strings. -/
def strContains (content pat : String) : Bool :=
  occursIn pat.data content.data

/-- Python `str.lower()`: per-character lowercasing. -/
def pyLower (s : String) : String :=
  ⟨s.data.map Char.toLower⟩

/-! ### Data model of `analyze_joss.py` -/

/-- The `Status` enum of `analyze_joss.py`. -/
inductive Status where
  | NEEDS_IMPROVEMENT
  | OK
  | GOOD
deriving DecidableEq, Repr

/-- The string `.value` of each `Status` member. -/
def Status.value : Status → String
  | .NEEDS_IMPROVEMENT => "needs improvement"
  | .OK => "ok"
  | .GOOD => "good"

namespace Details

def NOT_ANALYZED : String := "Not analyzed"
def MISSING_README : String := "Missing README with statement of need"
def MISSING_INSTALL : String := "Missing installation instructions"
def MISSING_USAGE : String := "Missing example usage"
def MISSING_GUIDELINES : String := "Missing community guidelines"
def FOUND_COMPREHENSIVE_NEED : String := "Found comprehensive statement of need in README"
def FOUND_NEED_IMPROVEMENT : String := "Found README but statement of need needs improvement"
def FOUND_COMPREHENSIVE_INSTALL : String := "Found comprehensive installation instructions"
def FOUND_INSTALL_IMPROVEMENT : String := "Found documentation but installation instructions need improvement"
def FOUND_COMPREHENSIVE_USAGE : String := "Found comprehensive example usage"
def FOUND_USAGE_IMPROVEMENT : String := "Found documentation but example usage needs improvement"
def FOUND_BOTH_GUIDELINES : String := "Found both contributing guidelines and code of conduct"
def FOUND_PARTIAL_GUIDELINES : String := "Found partial community guidelines"

end Details

def SCORE_GOOD : ℚ := 1.0
def SCORE_OK : ℚ := 0.7
def SCORE_NEEDS_IMPROVEMENT : ℚ := 0.3
def SCORE_NONE : ℚ := 0.0

def TEST_PASS_RATE_GOOD : ℚ := 0.9
def TEST_PASS_RATE_OK : ℚ := 0.7

/-- A JSON metric value as it reaches truthiness tests.  Python's truthiness of
the relevant value kinds: `False`, `0`, and `""` are falsy. -/
inductive MetricValue where
  | vBool (b : Bool)
  | vStr (s : String)
  | vInt (n : Int)
deriving DecidableEq, Repr

def MetricValue.truthy : MetricValue → Bool
  | .vBool b => b
  | .vStr s => !s.isEmpty
  | .vInt n => n != 0

/-- One record of the JSON-shaped metrics list; both keys may be absent in the
underlying dict, so both fields are optional. -/
structure MetricRecord where
  name : Option String
  result : Option MetricValue
deriving DecidableEq, Repr

/-- The polymorphic metrics payload of `get_metric_value`: either a list of
records (JSON format) or a keyed mapping (CSV format, a Python dict embedded
as an association list with distinct keys). -/
inductive Metrics where
  | json (l : List MetricRecord)
  | csv (m : List (String × MetricValue))
deriving DecidableEq, Repr

/-- Python truthiness of the metrics payload (`if almanack_results:`). -/
def Metrics.truthy : Metrics → Bool
  | .json l => !l.isEmpty
  | .csv m => !m.isEmpty

/-- `get_metric_value` of `analyze_joss.py`: linear scan for the first record
whose `name` equals the query on the JSON shape, direct key lookup on the CSV
shape. -/
def get_metric_value : Metrics → String → Option MetricValue
  | .json l, q =>
      match l.find? (fun r => r.name == some q) with
      | some r => r.result
      | none => none
  | .csv m, q =>
      match m.find? (fun p => p.1 == q) with
      | some p => some p.2
      | none => none

/-- Python truthiness of an optional metric value (`if has_readme:` where
`has_readme` may be `None`). -/
def optTruthy : Option MetricValue → Bool
  | none => false
  | some v => v.truthy

/-- One scored criterion: `status`/`score`/`details` of the per-criterion
dicts of `analyze_joss.py`. -/
structure Criterion where
  status : Status
  score : ℚ
  details : String
deriving DecidableEq, Repr

/-- The initial "Not analyzed" criterion value. -/
def notAnalyzedCriterion : Criterion :=
  ⟨Status.NEEDS_IMPROVEMENT, SCORE_NONE, Details.NOT_ANALYZED⟩

/-- The normalized test-result record produced by `run_tests.py` and consumed
by `analyze_test_results` (all counter fields default to 0 and string fields
to their defaults when missing from the dict). -/
structure TestResultRec where
  framework : String
  status : String
  total_tests : Nat
  passed : Nat
  failed : Nat
  output : String
  error : String
deriving DecidableEq, Repr

/-- The joined, stripped details string of the Tests criterion. -/
def testDetails (framework : String) (total passed failed : Nat) (error : String) : String :=
  (String.intercalate "\n"
    ["Framework: " ++ framework,
     "Total Tests: " ++ toString total,
     "Passed: " ++ toString passed,
     "Failed: " ++ toString failed,
     "Error: " ++ error]).trim

/-- `analyze_test_results` of `analyze_joss.py`.  `none` embeds a falsy
(empty/missing) test-results dict. -/
def analyze_test_results : Option TestResultRec → Criterion
  | none => notAnalyzedCriterion
  | some r =>
      let total_tests := r.total_tests
      let passed_tests := r.passed
      let base : Status × ℚ :=
        if 0 < total_tests then
          let pass_rate : ℚ := (passed_tests : ℚ) / (total_tests : ℚ)
          if TEST_PASS_RATE_GOOD ≤ pass_rate then (Status.GOOD, SCORE_GOOD)
          else if TEST_PASS_RATE_OK ≤ pass_rate then (Status.OK, SCORE_OK)
          else (Status.NEEDS_IMPROVEMENT, SCORE_NEEDS_IMPROVEMENT)
        else (Status.NEEDS_IMPROVEMENT, SCORE_NONE)
      ⟨base.1, base.2, testDetails r.framework total_tests passed_tests r.failed r.error⟩

/-! ### README scanning (`analyze_readme_content`) -/

def problemKeywords : List String :=
  ["problem", "solve", "purpose", "aim", "goal", "objective"]

def audienceKeywords : List String :=
  ["audience", "users", "intended for", "designed for"]

def relatedKeywords : List String :=
  ["related", "similar", "compared to", "alternative"]

def installKeywords : List String :=
  ["install", "setup", "dependencies", "requirements", "pip install"]

def usageKeywords : List String :=
  ["example", "usage", "how to use", "quick start", "getting started"]

/-- The boolean README signal set returned by `analyze_readme_content`. -/
structure DocSignals where
  statement_of_need : Bool
  installation : Bool
  example_usage : Bool
deriving DecidableEq, Repr

/-- `analyze_readme_content` of `analyze_joss.py`.  The repository directory
is embedded as the optional content of its `README.md`: `none` when the file
does not exist, `some raw` for its text, which the source lower-cases before
the keyword checks. -/
def analyze_readme_content : Option String → DocSignals
  | none => ⟨false, false, false⟩
  | some raw =>
      let content := pyLower raw
      let has_problem_statement := problemKeywords.any (fun p => strContains content p)
      let has_target_audience := audienceKeywords.any (fun p => strContains content p)
      let has_related_work := relatedKeywords.any (fun p => strContains content p)
      let has_installation := installKeywords.any (fun p => strContains content p)
      let has_examples := usageKeywords.any (fun p => strContains content p)
      ⟨has_problem_statement && has_target_audience && has_related_work,
        has_installation, has_examples⟩

/-! ### Almanack criteria (`analyze_almanack_results`)

The four if/else blocks of the source are embedded as one definition per
criterion; `analyze_almanack_results` assembles them in the source's dict
insertion order.  `analyze_readme_content(repo_dir)` is recomputed in each
block exactly as in the source (pure, so the recomputation is shared here). -/

def statement_of_need_criterion (metrics : Metrics) (readme : Option String) : Criterion :=
  let has_readme := optTruthy (get_metric_value metrics "repo-includes-readme")
  if has_readme then
    if (analyze_readme_content readme).statement_of_need then
      ⟨Status.GOOD, SCORE_GOOD, Details.FOUND_COMPREHENSIVE_NEED⟩
    else
      ⟨Status.OK, SCORE_OK, Details.FOUND_NEED_IMPROVEMENT⟩
  else
    ⟨Status.NEEDS_IMPROVEMENT, SCORE_NEEDS_IMPROVEMENT, Details.MISSING_README⟩

def installation_criterion (metrics : Metrics) (readme : Option String) : Criterion :=
  let has_readme := optTruthy (get_metric_value metrics "repo-includes-readme")
  let has_docs := optTruthy (get_metric_value metrics "repo-includes-common-docs")
  if has_readme && has_docs then
    if (analyze_readme_content readme).installation then
      ⟨Status.GOOD, SCORE_GOOD, Details.FOUND_COMPREHENSIVE_INSTALL⟩
    else
      ⟨Status.OK, SCORE_OK, Details.FOUND_INSTALL_IMPROVEMENT⟩
  else
    ⟨Status.NEEDS_IMPROVEMENT, SCORE_NEEDS_IMPROVEMENT, Details.MISSING_INSTALL⟩

def example_usage_criterion (metrics : Metrics) (readme : Option String) : Criterion :=
  let has_readme := optTruthy (get_metric_value metrics "repo-includes-readme")
  let has_docs := optTruthy (get_metric_value metrics "repo-includes-common-docs")
  if has_readme && has_docs then
    if (analyze_readme_content readme).example_usage then
      ⟨Status.GOOD, SCORE_GOOD, Details.FOUND_COMPREHENSIVE_USAGE⟩
    else
      ⟨Status.OK, SCORE_OK, Details.FOUND_USAGE_IMPROVEMENT⟩
  else
    ⟨Status.NEEDS_IMPROVEMENT, SCORE_NEEDS_IMPROVEMENT, Details.MISSING_USAGE⟩

def community_guidelines_criterion (metrics : Metrics) : Criterion :=
  let has_contributing := optTruthy (get_metric_value metrics "repo-includes-contributing")
  let has_code_of_conduct := optTruthy (get_metric_value metrics "repo-includes-code-of-conduct")
  if has_contributing && has_code_of_conduct then
    ⟨Status.GOOD, SCORE_GOOD, Details.FOUND_BOTH_GUIDELINES⟩
  else if has_contributing || has_code_of_conduct then
    ⟨Status.OK, SCORE_OK, Details.FOUND_PARTIAL_GUIDELINES⟩
  else
    ⟨Status.NEEDS_IMPROVEMENT, SCORE_NEEDS_IMPROVEMENT, Details.MISSING_GUIDELINES⟩

/-- `analyze_almanack_results` of `analyze_joss.py`: when the metrics payload
is falsy the initial "Not analyzed" criteria (score 0.0) are returned
unchanged; otherwise the four criteria are evaluated as in the source's four
if/else blocks. -/
def analyze_almanack_results (metrics : Metrics) (readme : Option String) :
    List (String × Criterion) :=
  if metrics.truthy then
    [("Statement of Need", statement_of_need_criterion metrics readme),
     ("Installation Instructions", installation_criterion metrics readme),
     ("Example Usage", example_usage_criterion metrics readme),
     ("Community Guidelines", community_guidelines_criterion metrics)]
  else
    [("Statement of Need", notAnalyzedCriterion),
     ("Installation Instructions", notAnalyzedCriterion),
     ("Example Usage", notAnalyzedCriterion),
     ("Community Guidelines", notAnalyzedCriterion)]

/-! ### Aggregation (`analyze_joss_criteria`) -/

/-- Python dict item assignment `d[k] = v` on an association list: replace the
value at the first occurrence of the key, keeping its position; append when
the key is absent. -/
def dictSet (d : List (String × Criterion)) (k : String) (v : Criterion) :
    List (String × Criterion) :=
  match d with
  | [] => [(k, v)]
  | (k', v') :: rest => if k' == k then (k, v) :: rest else (k', v') :: dictSet rest k v

/-- Python `d.update(other)`: item assignment for every entry of `other` in
order. -/
def dictUpdate (d other : List (String × Criterion)) : List (String × Criterion) :=
  other.foldl (fun acc p => dictSet acc p.1 p.2) d

/-- The initial five-criterion dict of `analyze_joss_criteria`. -/
def initCriteria : List (String × Criterion) :=
  [("Statement of Need", notAnalyzedCriterion),
   ("Installation Instructions", notAnalyzedCriterion),
   ("Example Usage", notAnalyzedCriterion),
   ("Community Guidelines", notAnalyzedCriterion),
   ("Tests", notAnalyzedCriterion)]

/-- The report record returned by `analyze_joss_criteria`. -/
structure Report where
  criteria : List (String × Criterion)
  overall_score : ℚ
  total_score : ℚ
  max_score : Nat
deriving DecidableEq, Repr

/-- `analyze_joss_criteria` of `analyze_joss.py`. -/
def analyze_joss_criteria (almanack_results : Metrics)
    (test_results : Option TestResultRec) (readme : Option String) : Report :=
  let c1 := dictSet initCriteria "Tests" (analyze_test_results test_results)
  let c2 := dictUpdate c1 (analyze_almanack_results almanack_results readme)
  let total_score := (c2.map (fun p => p.2.score)).sum
  let max_score := c2.length
  let overall_score := if 0 < max_score then total_score / (max_score : ℚ) else 0
  ⟨c2, overall_score, total_score, max_score⟩

/-! ### `run_tests.py`: ecosystem detection -/

/-- The ordered ecosystem marker table of `detect_project_type`. -/
def project_files : List (String × List String) :=
  [("python", ["requirements.txt", "setup.py", "pyproject.toml"]),
   ("node", ["package.json"]),
   ("java-maven", ["pom.xml"]),
   ("java-gradle", ["build.gradle"]),
   ("r", ["DESCRIPTION"]),
   ("rust", ["Cargo.toml"]),
   ("go", ["go.mod"])]

/-- `detect_project_type` of `run_tests.py`.  The repository root is embedded
as the list of names present in it. -/
def detect_project_type (fs : List String) : String :=
  match project_files.find? (fun p => p.2.any (fun f => fs.contains f)) with
  | some p => p.1
  | none => "unknown"

/-! ### `run_tests.py`: python adapter -/

/-- The per-line counters accumulated while scanning pytest output. -/
structure PyScan where
  total_tests : Nat
  passed : Nat
  failed : Nat
  skipped : Nat
  xfailed : Nat
  xpassed : Nat
deriving DecidableEq, Repr

def pyScanInit : PyScan := ⟨0, 0, 0, 0, 0, 0⟩

/-- Numeric value of a digit run (`int(m.group(1))`). -/
def natOfDigits (ds : List Char) : Nat :=
  ds.foldl (fun a c => a * 10 + (c.toNat - 48)) 0

/-- Match of the regex `collected (\d+) items` anchored at the start of `l`:
the literal `collected `, a maximal nonempty digit run, then the literal
` items`. -/
def matchCollectedAt (l : List Char) : Option Nat :=
  if isPrefixC "collected ".data l then
    let rest := l.drop "collected ".data.length
    let ds := rest.takeWhile Char.isDigit
    if ds.isEmpty then none
    else if isPrefixC " items".data (rest.drop ds.length) then some (natOfDigits ds)
    else none
  else none

/-- Leftmost search of the `collected (\d+) items` regex in a line
(`collected_re.search(line)` followed by `int(m.group(1))`). -/
def searchCollected : List Char → Option Nat
  | [] => none
  | c :: t =>
    match matchCollectedAt (c :: t) with
    | some n => some n
    | none => searchCollected t

/-- One iteration of the stdout scanning loop of `run_python_tests`: the
`collected N items` regex sets `total_tests`, then each pattern of the
`test_patterns` table is tested independently (with the inclusion/exclusion
pairs for PASSED/XPASS and FAILED/XFAIL). -/
def scanPyLine (s : PyScan) (line : String) : PyScan :=
  let s := match searchCollected line.data with
    | some n => { s with total_tests := n }
    | none => s
  let s := if strContains line "PASSED" && !(strContains line "XPASS") then
      { s with passed := s.passed + 1 } else s
  let s := if strContains line "FAILED" && !(strContains line "XFAIL") then
      { s with failed := s.failed + 1 } else s
  let s := if strContains line "SKIPPED" then { s with skipped := s.skipped + 1 } else s
  let s := if strContains line "XFAIL" then { s with xfailed := s.xfailed + 1 } else s
  let s := if strContains line "XPASS" then { s with xpassed := s.xpassed + 1 } else s
  s

/-- The child-process environment observed by `run_python_tests`: whether
dependency installation succeeds, and the test child's captured stdout
(already split on newlines), stderr, and exit code. -/
structure PyWorld where
  installOk : Bool
  stdout_lines : List String
  stderr : String
  returncode : Int
deriving DecidableEq, Repr

/-- The post-scan steps of `run_python_tests`: infer a zero total from the
sum of the per-line counters, derive the status from `failed`, the total and
the exit code, and drop the skipped/xfailed/xpassed counters from the
returned record. -/
def pyFinalize (framework : String) (s : PyScan) (returncode : Int)
    (output error : String) : TestResultRec :=
  let counted := s.passed + s.failed + s.skipped + s.xfailed + s.xpassed
  let total := if s.total_tests = 0 ∧ 0 < counted then counted else s.total_tests
  let status1 := if 0 < s.failed then "FAIL" else if 0 < total then "PASS" else "FAIL"
  let status2 := if total = 0 then (if returncode = 0 then "PASS" else "FAIL") else status1
  { framework := framework, status := status2, total_tests := total,
    passed := s.passed, failed := s.failed, output := output, error := error }

/-- `run_python_tests` of `run_tests.py`, as a function of the repository
root contents and the child-process observations. -/
def run_python_tests (fs : List String) (w : PyWorld) : TestResultRec :=
  if w.installOk = false then
    { framework := "unknown", status := "FAIL", total_tests := 0, passed := 0,
      failed := 0, output := "", error := "Failed to install dependencies" }
  else
    pyFinalize
      (if fs.contains "pytest.ini" || fs.contains "conftest.py" || fs.contains "tests"
       then "pytest" else "unittest")
      (w.stdout_lines.foldl scanPyLine pyScanInit)
      w.returncode
      (String.intercalate "\n" w.stdout_lines)
      w.stderr

/-! ### `run_tests.py`: node adapter -/

/-- The child-process environment observed by `run_node_tests`: whether
`npm install` raises (its `check=True` failure), the raised message, and the
`npm test` child's captured stdout lines, stderr, and exit code. -/
structure NodeWorld where
  installRaises : Bool
  installErrMsg : String
  stdout_lines : List String
  stderr : String
  returncode : Int
deriving DecidableEq, Repr

/-- One iteration of the coarse stdout scan of `run_node_tests`: a line
containing `passing` (case-insensitive) counts as passed, else a line
containing `failing` counts as failed; each hit also increments the total. -/
def nodeScanStep (acc : TestResultRec) (line : String) : TestResultRec :=
  if strContains (pyLower line) "passing" then
    { acc with passed := acc.passed + 1, total_tests := acc.total_tests + 1 }
  else if strContains (pyLower line) "failing" then
    { acc with failed := acc.failed + 1, total_tests := acc.total_tests + 1 }
  else acc

/-- `run_node_tests` of `run_tests.py`. -/
def run_node_tests (fs : List String) (w : NodeWorld) : TestResultRec :=
  let init : TestResultRec :=
    { framework := "unknown", status := "FAIL", total_tests := 0, passed := 0,
      failed := 0, output := "", error := "" }
  if fs.contains "package.json" = false then
    { init with error := "No package.json found" }
  else if w.installRaises then
    { init with error := w.installErrMsg }
  else
    let base := { init with output := String.intercalate "\n" w.stdout_lines,
                            error := w.stderr }
    if w.returncode = 0 then
      w.stdout_lines.foldl nodeScanStep { base with status := "PASS" }
    else base

/-! ### `run_tests.py`: dispatch -/

/-- The child-process observations available to both adapters. -/
structure World where
  py : PyWorld
  node : NodeWorld
deriving DecidableEq, Repr

/-- `execute_tests` of `run_tests.py`. -/
def execute_tests (fs : List String) (w : World) : TestResultRec :=
  let project_type := detect_project_type fs
  if project_type = "python" then run_python_tests fs w.py
  else if project_type = "node" then run_node_tests fs w.node
  else
    { framework := "unknown", status := "FAIL", total_tests := 0, passed := 0,
      failed := 0, output := "", error := "Unsupported project type: " ++ project_type }

/-- A fixed trivial world used for closed instances. -/
def emptyWorld : World :=
  ⟨⟨true, [], "", 0⟩, ⟨false, "", [], "", 0⟩⟩

/-! ### Specification-side predicates used by the claim theorems -/

/-- The fixed (status, score) mapping table of the evaluator. -/
def fixedPair (c : Criterion) : Prop :=
  (c.status = Status.GOOD ∧ c.score = 1) ∨
  (c.status = Status.OK ∧ c.score = 7 / 10) ∨
  (c.status = Status.NEEDS_IMPROVEMENT ∧ c.score = 3 / 10)

/-- A keyword occurs as a substring of the content. -/
def kwHit (content kw : String) : Prop :=
  ∃ pre post, content.data = pre ++ kw.data ++ post

/-- A concrete truthy metrics payload carrying only a truthy README metric. -/
def metricsReadmeOnly : Metrics :=
  Metrics.json [⟨some "repo-includes-readme", some (MetricValue.vBool true)⟩]

/-- A concrete python-adapter world with two PASSED lines and no collected
line. -/
def wPy0 : PyWorld := ⟨true, ["a PASSED", "b PASSED"], "", 0⟩

end CCKP

namespace CCKP

/-! ### Correspondence lemmas for the string machinery -/

theorem isPrefixC_iff (p : List Char) : ∀ l : List Char,
    isPrefixC p l = true ↔ ∃ t, l = p ++ t := by
  induction p with
  | nil =>
      intro l
      simp [isPrefixC]
  | cons a as ih =>
      intro l
      cases l with
      | nil => simp [isPrefixC]
      | cons b bs =>
          simp only [isPrefixC, Bool.and_eq_true, beq_iff_eq, ih bs]
          constructor
          · rintro ⟨rfl, t, rfl⟩
            exact ⟨t, rfl⟩
          · rintro ⟨t, h⟩
            injection h with h1 h2
            exact ⟨h1.symm, t, h2⟩

theorem occursIn_iff (pat : List Char) : ∀ l : List Char,
    occursIn pat l = true ↔ ∃ pre post, l = pre ++ pat ++ post := by
  intro l
  induction l with
  | nil =>
      simp only [occursIn, List.isEmpty_iff]
      constructor
      · rintro rfl
        exact ⟨[], [], rfl⟩
      · rintro ⟨pre, post, h⟩
        rcases List.append_eq_nil.mp h.symm with ⟨h1, h2⟩
        exact (List.append_eq_nil.mp h1).2
  | cons c t ih =>
      simp only [occursIn, Bool.or_eq_true, isPrefixC_iff, ih]
      constructor
      · rintro (⟨s, hs⟩ | ⟨pre, post, hp⟩)
        · exact ⟨[], s, by simpa using hs⟩
        · exact ⟨c :: pre, post, by simp [hp]⟩
      · rintro ⟨pre, post, hp⟩
        cases pre with
        | nil =>
            left
            exact ⟨post, by simpa using hp⟩
        | cons x xs =>
            right
            injection hp with h1 h2
            exact ⟨xs, post, h2⟩

theorem strContains_iff (content pat : String) :
    strContains content pat = true ↔
      ∃ pre post, content.data = pre ++ pat.data ++ post := by
  simpa [strContains] using occursIn_iff pat.data content.data

/-! ### Claim theorems -/

/-- C1: the Tests criterion follows the pass-rate thresholds exactly. -/
theorem analyze_test_results_thresholds (r : TestResultRec) :
    (0 < r.total_tests →
      ((9 : ℚ) / 10 ≤ (r.passed : ℚ) / (r.total_tests : ℚ) →
        (analyze_test_results (some r)).status = Status.GOOD ∧
        (analyze_test_results (some r)).score = 1) ∧
      ((r.passed : ℚ) / (r.total_tests : ℚ) < (9 : ℚ) / 10 →
        (7 : ℚ) / 10 ≤ (r.passed : ℚ) / (r.total_tests : ℚ) →
        (analyze_test_results (some r)).status = Status.OK ∧
        (analyze_test_results (some r)).score = 7 / 10) ∧
      ((r.passed : ℚ) / (r.total_tests : ℚ) < (7 : ℚ) / 10 →
        (analyze_test_results (some r)).status = Status.NEEDS_IMPROVEMENT ∧
        (analyze_test_results (some r)).score = 3 / 10)) ∧
    (r.total_tests = 0 →
      (analyze_test_results (some r)).status = Status.NEEDS_IMPROVEMENT ∧
      (analyze_test_results (some r)).score = 0) := by
  constructor
  · intro htot
    refine ⟨?_, ?_, ?_⟩
    · intro hrate
      simp only [analyze_test_results, TEST_PASS_RATE_GOOD, TEST_PASS_RATE_OK,
        SCORE_GOOD, SCORE_OK, SCORE_NEEDS_IMPROVEMENT, SCORE_NONE]
      rw [if_pos htot, if_pos (by norm_num; exact hrate)]
      exact ⟨rfl, by norm_num⟩
    · intro hlt hge
      simp only [analyze_test_results, TEST_PASS_RATE_GOOD, TEST_PASS_RATE_OK,
        SCORE_GOOD, SCORE_OK, SCORE_NEEDS_IMPROVEMENT, SCORE_NONE]
      rw [if_pos htot, if_neg (by norm_num; exact hlt),
        if_pos (by norm_num; exact hge)]
      exact ⟨rfl, by norm_num⟩
    · intro hlt
      simp only [analyze_test_results, TEST_PASS_RATE_GOOD, TEST_PASS_RATE_OK,
        SCORE_GOOD, SCORE_OK, SCORE_NEEDS_IMPROVEMENT, SCORE_NONE]
      rw [if_pos htot,
        if_neg (by norm_num; exact lt_trans hlt (by norm_num)),
        if_neg (by norm_num; exact hlt)]
      exact ⟨rfl, by norm_num⟩
  · intro h0
    simp only [analyze_test_results, SCORE_NONE]
    rw [if_neg (by omega)]
    exact ⟨rfl, by norm_num⟩

/-- The criteria dict built by `analyze_joss_criteria` is the Almanack
criteria followed by the Tests criterion, in insertion order. -/
theorem criteria_shape (metrics : Metrics) (tests : Option TestResultRec)
    (readme : Option String) :
    (analyze_joss_criteria metrics tests readme).criteria =
      analyze_almanack_results metrics readme ++
        [("Tests", analyze_test_results tests)] := by
  by_cases hm : metrics.truthy <;>
    simp [analyze_joss_criteria, analyze_almanack_results, hm, dictUpdate,
      dictSet, initCriteria]

/-- Definitional relations between the report fields. -/
theorem report_fields (metrics : Metrics) (tests : Option TestResultRec)
    (readme : Option String) :
    (analyze_joss_criteria metrics tests readme).total_score =
      ((analyze_joss_criteria metrics tests readme).criteria.map
        (fun p => p.2.score)).sum ∧
    (analyze_joss_criteria metrics tests readme).max_score =
      (analyze_joss_criteria metrics tests readme).criteria.length ∧
    (analyze_joss_criteria metrics tests readme).overall_score =
      (if 0 < (analyze_joss_criteria metrics tests readme).criteria.length then
        ((analyze_joss_criteria metrics tests readme).criteria.map
          (fun p => p.2.score)).sum /
          ((analyze_joss_criteria metrics tests readme).criteria.length : ℚ)
      else 0) :=
  ⟨rfl, rfl, rfl⟩

/-- C3: every report has exactly the five fixed criteria, `max_score = 5`,
`overall_score` is the unweighted sum of the five scores divided by 5, and
the aggregate is invariant under reordering of the summed scores. -/
theorem analyze_joss_criteria_aggregate (metrics : Metrics)
    (tests : Option TestResultRec) (readme : Option String) :
    ((analyze_joss_criteria metrics tests readme).criteria.map Prod.fst =
      ["Statement of Need", "Installation Instructions", "Example Usage",
       "Community Guidelines", "Tests"]) ∧
    (analyze_joss_criteria metrics tests readme).max_score = 5 ∧
    (analyze_joss_criteria metrics tests readme).total_score =
      ((analyze_joss_criteria metrics tests readme).criteria.map
        (fun p => p.2.score)).sum ∧
    (analyze_joss_criteria metrics tests readme).overall_score =
      ((analyze_joss_criteria metrics tests readme).criteria.map
        (fun p => p.2.score)).sum / 5 ∧
    (∀ l : List ℚ,
      ((analyze_joss_criteria metrics tests readme).criteria.map
        (fun p => p.2.score)).Perm l →
      (analyze_joss_criteria metrics tests readme).overall_score = l.sum / 5) := by
  have hshape := criteria_shape metrics tests readme
  have hkeys : (analyze_joss_criteria metrics tests readme).criteria.map Prod.fst =
      ["Statement of Need", "Installation Instructions", "Example Usage",
       "Community Guidelines", "Tests"] := by
    rw [hshape]
    by_cases hm : metrics.truthy <;> simp [analyze_almanack_results, hm]
  have hlen : (analyze_joss_criteria metrics tests readme).criteria.length = 5 := by
    have h := congrArg List.length hkeys
    simpa using h
  have hmax : (analyze_joss_criteria metrics tests readme).max_score = 5 := by
    rw [(report_fields metrics tests readme).2.1, hlen]
  have hoverall : (analyze_joss_criteria metrics tests readme).overall_score =
      ((analyze_joss_criteria metrics tests readme).criteria.map
        (fun p => p.2.score)).sum / 5 := by
    rw [(report_fields metrics tests readme).2.2, hlen]
    norm_num
  exact ⟨hkeys, hmax, (report_fields metrics tests readme).1, hoverall,
    fun l hperm => by rw [hoverall, hperm.sum_eq]⟩

/-- Witness for C3: at a concrete input the aggregate can be recomputed from
a reordering of the five scores. -/
theorem analyze_joss_criteria_aggregate_witness :
    (analyze_joss_criteria metricsReadmeOnly none none).overall_score =
      ([SCORE_NEEDS_IMPROVEMENT, SCORE_OK, SCORE_NEEDS_IMPROVEMENT,
        SCORE_NEEDS_IMPROVEMENT, SCORE_NONE] : List ℚ).sum / 5 := by
  have hmap : (analyze_joss_criteria metricsReadmeOnly none none).criteria.map
      (fun p => p.2.score) =
      [SCORE_OK, SCORE_NEEDS_IMPROVEMENT, SCORE_NEEDS_IMPROVEMENT,
       SCORE_NEEDS_IMPROVEMENT, SCORE_NONE] := rfl
  exact (analyze_joss_criteria_aggregate metricsReadmeOnly none none).2.2.2.2 _
    (by rw [hmap]; exact List.Perm.swap _ _ _)

theorem goodPair (d : String) : fixedPair ⟨Status.GOOD, SCORE_GOOD, d⟩ :=
  Or.inl ⟨rfl, by norm_num [SCORE_GOOD]⟩

theorem okPair (d : String) : fixedPair ⟨Status.OK, SCORE_OK, d⟩ :=
  Or.inr (Or.inl ⟨rfl, by norm_num [SCORE_OK]⟩)

theorem niPair (d : String) :
    fixedPair ⟨Status.NEEDS_IMPROVEMENT, SCORE_NEEDS_IMPROVEMENT, d⟩ :=
  Or.inr (Or.inr ⟨rfl, by norm_num [SCORE_NEEDS_IMPROVEMENT]⟩)

/-- C2 counterexample: on an empty metrics payload every criterion of the
report, the four documentation criteria included, carries score 0.0, which is
below 0.3. -/
theorem score_zero_on_empty_metrics :
    ((analyze_joss_criteria (Metrics.json []) none none).criteria.map
        (fun p => (p.1, p.2.score)) =
      [("Statement of Need", SCORE_NONE), ("Installation Instructions", SCORE_NONE),
       ("Example Usage", SCORE_NONE), ("Community Guidelines", SCORE_NONE),
       ("Tests", SCORE_NONE)]) ∧
    SCORE_NONE < 3 / 10 :=
  ⟨rfl, by norm_num [SCORE_NONE]⟩

/-- C2 (amended): for a truthy metrics payload, every non-Tests criterion
carries a (status, score) pair of the fixed mapping and scores at least 0.3;
the Tests criterion is either in the fixed mapping or the
NEEDS_IMPROVEMENT/0.0 outcome, and a zero score forces a zero test total. -/
theorem criteria_pairs (metrics : Metrics) (tests : Option TestResultRec)
    (readme : Option String) (hm : metrics.truthy = true) :
    ∀ p ∈ (analyze_joss_criteria metrics tests readme).criteria,
      (p.1 ≠ "Tests" → fixedPair p.2 ∧ (3 / 10 : ℚ) ≤ p.2.score) ∧
      (p.1 = "Tests" →
        (fixedPair p.2 ∨
          (p.2.status = Status.NEEDS_IMPROVEMENT ∧ p.2.score = 0)) ∧
        (p.2.score = 0 → ∀ r, tests = some r → r.total_tests = 0)) := by
  intro p hp
  rw [criteria_shape] at hp
  simp only [analyze_almanack_results, hm, if_true] at hp
  simp only [List.mem_append, List.mem_cons, List.not_mem_nil, or_false] at hp
  have hscoreOK : (3 / 10 : ℚ) ≤ SCORE_OK := by norm_num [SCORE_OK]
  have hscoreGOOD : (3 / 10 : ℚ) ≤ SCORE_GOOD := by norm_num [SCORE_GOOD]
  have hscoreNI : (3 / 10 : ℚ) ≤ SCORE_NEEDS_IMPROVEMENT := by
    norm_num [SCORE_NEEDS_IMPROVEMENT]
  rcases hp with (rfl | rfl | rfl | rfl) | rfl
  · refine ⟨fun _ => ?_, fun habs => by simp at habs⟩
    simp only [statement_of_need_criterion]
    split_ifs <;>
      first
        | exact ⟨goodPair _, hscoreGOOD⟩
        | exact ⟨okPair _, hscoreOK⟩
        | exact ⟨niPair _, hscoreNI⟩
  · refine ⟨fun _ => ?_, fun habs => by simp at habs⟩
    simp only [installation_criterion]
    split_ifs <;>
      first
        | exact ⟨goodPair _, hscoreGOOD⟩
        | exact ⟨okPair _, hscoreOK⟩
        | exact ⟨niPair _, hscoreNI⟩
  · refine ⟨fun _ => ?_, fun habs => by simp at habs⟩
    simp only [example_usage_criterion]
    split_ifs <;>
      first
        | exact ⟨goodPair _, hscoreGOOD⟩
        | exact ⟨okPair _, hscoreOK⟩
        | exact ⟨niPair _, hscoreNI⟩
  · refine ⟨fun _ => ?_, fun habs => by simp at habs⟩
    simp only [community_guidelines_criterion]
    split_ifs <;>
      first
        | exact ⟨goodPair _, hscoreGOOD⟩
        | exact ⟨okPair _, hscoreOK⟩
        | exact ⟨niPair _, hscoreNI⟩
  · refine ⟨fun habs => absurd rfl habs, fun _ => ⟨?_, ?_⟩⟩
    · cases tests with
      | none =>
          right
          exact ⟨rfl, by norm_num [analyze_test_results, notAnalyzedCriterion, SCORE_NONE]⟩
      | some r =>
          simp only [analyze_test_results]
          split_ifs
          · exact Or.inl (goodPair _)
          · exact Or.inl (okPair _)
          · exact Or.inl (niPair _)
          · exact Or.inr ⟨rfl, by norm_num [SCORE_NONE]⟩
    · intro hscore r' hr'
      cases tests with
      | none => exact Option.noConfusion hr'
      | some r =>
          injection hr' with hr'
          subst hr'
          simp only [analyze_test_results] at hscore
          split_ifs at hscore with h1 h2 h3
          · exact absurd hscore (by norm_num [SCORE_GOOD])
          · exact absurd hscore (by norm_num [SCORE_OK])
          · exact absurd hscore (by norm_num [SCORE_NEEDS_IMPROVEMENT])
          · omega

/-- Witness for C2 (amended) at a concrete truthy metrics payload: the
Statement of Need criterion is in the fixed mapping with score at least 0.3. -/
theorem criteria_pairs_witness :
    fixedPair (⟨Status.OK, SCORE_OK, Details.FOUND_NEED_IMPROVEMENT⟩ : Criterion) ∧
      (3 / 10 : ℚ) ≤ SCORE_OK := by
  have hcrit : (analyze_joss_criteria metricsReadmeOnly none none).criteria =
      [("Statement of Need",
          ⟨Status.OK, SCORE_OK, Details.FOUND_NEED_IMPROVEMENT⟩),
       ("Installation Instructions",
          ⟨Status.NEEDS_IMPROVEMENT, SCORE_NEEDS_IMPROVEMENT, Details.MISSING_INSTALL⟩),
       ("Example Usage",
          ⟨Status.NEEDS_IMPROVEMENT, SCORE_NEEDS_IMPROVEMENT, Details.MISSING_USAGE⟩),
       ("Community Guidelines",
          ⟨Status.NEEDS_IMPROVEMENT, SCORE_NEEDS_IMPROVEMENT, Details.MISSING_GUIDELINES⟩),
       ("Tests", notAnalyzedCriterion)] := rfl
  have h := criteria_pairs metricsReadmeOnly none none rfl
      ("Statement of Need", ⟨Status.OK, SCORE_OK, Details.FOUND_NEED_IMPROVEMENT⟩)
      (by rw [hcrit]; exact List.Mem.head _)
  exact h.1 (by decide)

/-- C4: the Installation Instructions and Example Usage criteria are gated on
both the README metric and the common-docs metric being truthy; if either is
missing or falsy the outcome is NEEDS_IMPROVEMENT/0.3 regardless of document
content, and only when both hold is the document signal consulted
(true maps to GOOD/1.0, false to OK/0.7). -/
theorem installation_example_gate (metrics : Metrics) (readme : Option String)
    (hm : metrics.truthy = true) :
    (analyze_almanack_results metrics readme =
      [("Statement of Need", statement_of_need_criterion metrics readme),
       ("Installation Instructions", installation_criterion metrics readme),
       ("Example Usage", example_usage_criterion metrics readme),
       ("Community Guidelines", community_guidelines_criterion metrics)]) ∧
    ((optTruthy (get_metric_value metrics "repo-includes-readme") &&
        optTruthy (get_metric_value metrics "repo-includes-common-docs")) = false →
      installation_criterion metrics readme =
        ⟨Status.NEEDS_IMPROVEMENT, SCORE_NEEDS_IMPROVEMENT, Details.MISSING_INSTALL⟩ ∧
      example_usage_criterion metrics readme =
        ⟨Status.NEEDS_IMPROVEMENT, SCORE_NEEDS_IMPROVEMENT, Details.MISSING_USAGE⟩) ∧
    ((optTruthy (get_metric_value metrics "repo-includes-readme") &&
        optTruthy (get_metric_value metrics "repo-includes-common-docs")) = true →
      installation_criterion metrics readme =
        (if (analyze_readme_content readme).installation then
          ⟨Status.GOOD, SCORE_GOOD, Details.FOUND_COMPREHENSIVE_INSTALL⟩
         else ⟨Status.OK, SCORE_OK, Details.FOUND_INSTALL_IMPROVEMENT⟩) ∧
      example_usage_criterion metrics readme =
        (if (analyze_readme_content readme).example_usage then
          ⟨Status.GOOD, SCORE_GOOD, Details.FOUND_COMPREHENSIVE_USAGE⟩
         else ⟨Status.OK, SCORE_OK, Details.FOUND_USAGE_IMPROVEMENT⟩)) := by
  refine ⟨by simp [analyze_almanack_results, hm], fun h => ?_, fun h => ?_⟩
  · constructor <;> simp [installation_criterion, example_usage_criterion, h]
  · constructor <;> simp [installation_criterion, example_usage_criterion, h]

/-- Witness for C4: a truthy payload whose common-docs metric is absent masks
a README that does contain installation keywords. -/
theorem installation_example_gate_witness :
    installation_criterion metricsReadmeOnly (some "pip install this") =
      ⟨Status.NEEDS_IMPROVEMENT, SCORE_NEEDS_IMPROVEMENT, Details.MISSING_INSTALL⟩ ∧
    example_usage_criterion metricsReadmeOnly (some "pip install this") =
      ⟨Status.NEEDS_IMPROVEMENT, SCORE_NEEDS_IMPROVEMENT, Details.MISSING_USAGE⟩ :=
  (installation_example_gate metricsReadmeOnly (some "pip install this") rfl).2.1 rfl

/-- C5: the document scanner returns all-false signals when the README is
absent; otherwise, on the lower-cased text, statement_of_need holds exactly
when all three keyword groups hit, while installation and example_usage each
hold exactly when some keyword of their set occurs; a document containing
only "purpose", "users" and "alternative" yields (true, false, false). -/
theorem readme_scanner_spec (c : String) :
    analyze_readme_content none = ⟨false, false, false⟩ ∧
    ((analyze_readme_content (some c)).statement_of_need = true ↔
      ((∃ kw ∈ problemKeywords, kwHit (pyLower c) kw) ∧
       (∃ kw ∈ audienceKeywords, kwHit (pyLower c) kw) ∧
       (∃ kw ∈ relatedKeywords, kwHit (pyLower c) kw))) ∧
    ((analyze_readme_content (some c)).installation = true ↔
      ∃ kw ∈ installKeywords, kwHit (pyLower c) kw) ∧
    ((analyze_readme_content (some c)).example_usage = true ↔
      ∃ kw ∈ usageKeywords, kwHit (pyLower c) kw) ∧
    analyze_readme_content (some "purpose users alternative") = ⟨true, false, false⟩ := by
  refine ⟨rfl, ?_, ?_, ?_, by decide⟩
  · simp only [analyze_readme_content, Bool.and_eq_true, List.any_eq_true,
      strContains_iff, kwHit]
    exact and_assoc
  · simp only [analyze_readme_content, List.any_eq_true, strContains_iff, kwHit]
  · simp only [analyze_readme_content, List.any_eq_true, strContains_iff, kwHit]

/-- Total inference and status derivation of the python adapter finalizer. -/
theorem pyFinalize_spec (framework : String) (s : PyScan) (rc : Int)
    (out err : String) :
    (s.total_tests = 0 →
      (pyFinalize framework s rc out err).total_tests =
        s.passed + s.failed + s.skipped + s.xfailed + s.xpassed) ∧
    ((pyFinalize framework s rc out err).status =
      if 0 < s.failed then "FAIL"
      else if 0 < (pyFinalize framework s rc out err).total_tests then "PASS"
      else if rc = 0 then "PASS" else "FAIL") := by
  have htot : (pyFinalize framework s rc out err).total_tests =
      if s.total_tests = 0 ∧
          0 < s.passed + s.failed + s.skipped + s.xfailed + s.xpassed
      then s.passed + s.failed + s.skipped + s.xfailed + s.xpassed
      else s.total_tests := rfl
  have hstat : (pyFinalize framework s rc out err).status =
      if (pyFinalize framework s rc out err).total_tests = 0
      then (if rc = 0 then "PASS" else "FAIL")
      else if 0 < s.failed then "FAIL"
        else if 0 < (pyFinalize framework s rc out err).total_tests then "PASS"
        else "FAIL" := rfl
  constructor
  · intro h0
    rw [htot]
    split_ifs with hc
    · rfl
    · have hcnt : ¬(0 < s.passed + s.failed + s.skipped + s.xfailed + s.xpassed) :=
        fun hlt => hc ⟨h0, hlt⟩
      omega
  · by_cases hf : 0 < s.failed
    · have hT : ¬((pyFinalize framework s rc out err).total_tests = 0) := by
        rw [htot]
        split_ifs with hc
        · omega
        · intro h0
          exact hc ⟨h0, by omega⟩
      rw [hstat, if_neg hT, if_pos hf, if_pos hf]
    · by_cases hT : (pyFinalize framework s rc out err).total_tests = 0
      · rw [hstat, if_pos hT, if_neg hf, if_neg (show ¬0 < (pyFinalize framework s rc out err).total_tests by rw [hT]; omega)]
      · rw [hstat, if_neg hT, if_neg hf, if_neg hf,
          if_pos (Nat.pos_of_ne_zero hT), if_pos (Nat.pos_of_ne_zero hT)]

/-- C6: after successful dependency installation, a zero post-scan total is
replaced by the sum of the five per-line counters, and the final status is
FAIL when failed lines were counted, else PASS when the final total is
positive, else PASS exactly when the child exited with code zero. -/
theorem run_python_tests_inference (fs : List String) (w : PyWorld)
    (hinstall : w.installOk = true) :
    ((w.stdout_lines.foldl scanPyLine pyScanInit).total_tests = 0 →
      (run_python_tests fs w).total_tests =
        (w.stdout_lines.foldl scanPyLine pyScanInit).passed +
        (w.stdout_lines.foldl scanPyLine pyScanInit).failed +
        (w.stdout_lines.foldl scanPyLine pyScanInit).skipped +
        (w.stdout_lines.foldl scanPyLine pyScanInit).xfailed +
        (w.stdout_lines.foldl scanPyLine pyScanInit).xpassed) ∧
    ((run_python_tests fs w).status =
      if 0 < (w.stdout_lines.foldl scanPyLine pyScanInit).failed then "FAIL"
      else if 0 < (run_python_tests fs w).total_tests then "PASS"
      else if w.returncode = 0 then "PASS" else "FAIL") := by
  have hrun : run_python_tests fs w =
      pyFinalize
        (if fs.contains "pytest.ini" || fs.contains "conftest.py" || fs.contains "tests"
         then "pytest" else "unittest")
        (w.stdout_lines.foldl scanPyLine pyScanInit)
        w.returncode
        (String.intercalate "\n" w.stdout_lines)
        w.stderr := by
    simp [run_python_tests, hinstall]
  rw [hrun]
  exact pyFinalize_spec _ _ _ _ _

/-- Witness for C6 at a concrete output: two PASSED lines and no collected
line give an inferred total of 2 and status PASS. -/
theorem run_python_tests_inference_witness :
    (run_python_tests [] wPy0).total_tests = 2 ∧
      (run_python_tests [] wPy0).status = "PASS" := by
  have h := run_python_tests_inference [] wPy0 rfl
  constructor
  · rw [h.1 (by decide)]
    decide
  · rw [h.2]
    decide

/-- C7 counterexample: an R-ecosystem repository is neither python nor node,
and the reported error string is "Unsupported project type: r", not
"unsupported ecosystem". -/
theorem execute_tests_unsupported_error_string :
    detect_project_type ["DESCRIPTION"] = "r" ∧
    (execute_tests ["DESCRIPTION"] emptyWorld).status = "FAIL" ∧
    (execute_tests ["DESCRIPTION"] emptyWorld).total_tests = 0 ∧
    (execute_tests ["DESCRIPTION"] emptyWorld).error = "Unsupported project type: r" ∧
    ¬((execute_tests ["DESCRIPTION"] emptyWorld).error = "unsupported ecosystem") := by
  refine ⟨rfl, rfl, rfl, rfl, ?_⟩
  decide

/-- C7 (amended): the dispatch is python to the python adapter, node to the
node adapter, and every other detected ecosystem to a reported (not raised)
FAIL result with zero counts and error "Unsupported project type: " followed
by the detected tag. -/
theorem execute_tests_dispatch (fs : List String) (w : World) :
    (detect_project_type fs ≠ "python" → detect_project_type fs ≠ "node" →
      execute_tests fs w =
        { framework := "unknown", status := "FAIL", total_tests := 0, passed := 0,
          failed := 0, output := "",
          error := "Unsupported project type: " ++ detect_project_type fs }) ∧
    (detect_project_type fs = "python" → execute_tests fs w = run_python_tests fs w.py) ∧
    (detect_project_type fs = "node" → execute_tests fs w = run_node_tests fs w.node) := by
  refine ⟨fun h1 h2 => ?_, fun h => ?_, fun h => ?_⟩
  · simp [execute_tests, h1, h2]
  · simp [execute_tests, h]
  · simp [execute_tests, h]

/-- Witness for C7 (amended): a root with R and Go markers detects as "r" and
yields the fixed unsupported-ecosystem result. -/
theorem execute_tests_dispatch_witness :
    execute_tests ["DESCRIPTION", "go.mod"] emptyWorld =
      { framework := "unknown", status := "FAIL", total_tests := 0, passed := 0,
        failed := 0, output := "",
        error := "Unsupported project type: " ++
          detect_project_type ["DESCRIPTION", "go.mod"] } :=
  (execute_tests_dispatch ["DESCRIPTION", "go.mod"] emptyWorld).1
    (by decide) (by decide)

/-- Keyed lookup on an association list with distinct keys returns the mapped
value. -/
theorem csv_lookup (m : List (String × MetricValue)) (q : String) (v : MetricValue) :
    (q, v) ∈ m → (m.map Prod.fst).Nodup →
    get_metric_value (Metrics.csv m) q = some v := by
  induction m with
  | nil => intro hv _; cases hv
  | cons a t ih =>
      intro hv hnd
      obtain ⟨a1, a2⟩ := a
      rcases List.mem_cons.mp hv with heq | hvt
      · obtain ⟨h1, h2⟩ := Prod.mk.injEq .. ▸ heq
        subst h1; subst h2
        simp [get_metric_value, List.find?]
      · simp only [List.map_cons, List.nodup_cons] at hnd
        have hq : q ∈ t.map Prod.fst := List.mem_map.mpr ⟨(q, v), hvt, rfl⟩
        have hne : (a1 == q) = false := by
          refine beq_eq_false_iff_ne.mpr ?_
          intro he
          exact hnd.1 (he ▸ hq)
        have hrec := ih hvt hnd.2
        simp only [get_metric_value, List.find?, hne] at hrec ⊢
        exact hrec

/-- C8: the two metric shapes agree: the JSON path returns the result of the
first record whose name equals the query (absent when none matches), the CSV
path returns the mapped value (absent when the key is missing), a name
absent from both shapes yields absent on both, and a name mapped to the same
value in both shapes yields that value on both. -/
theorem get_metric_value_shapes (l : List MetricRecord)
    (m : List (String × MetricValue)) (q : String) :
    (∀ r, l.find? (fun x => x.name == some q) = some r →
      get_metric_value (Metrics.json l) q = r.result) ∧
    ((∀ r ∈ l, r.name ≠ some q) → get_metric_value (Metrics.json l) q = none) ∧
    (∀ v, (q, v) ∈ m → (m.map Prod.fst).Nodup →
      get_metric_value (Metrics.csv m) q = some v) ∧
    ((∀ p ∈ m, p.1 ≠ q) → get_metric_value (Metrics.csv m) q = none) ∧
    ((∀ r ∈ l, r.name ≠ some q) → (∀ p ∈ m, p.1 ≠ q) →
      get_metric_value (Metrics.json l) q = none ∧
      get_metric_value (Metrics.csv m) q = none) ∧
    (∀ v r, l.find? (fun x => x.name == some q) = some r → r.result = some v →
      (q, v) ∈ m → (m.map Prod.fst).Nodup →
      get_metric_value (Metrics.json l) q = some v ∧
      get_metric_value (Metrics.csv m) q = some v) := by
  have hjson_first : ∀ r, l.find? (fun x => x.name == some q) = some r →
      get_metric_value (Metrics.json l) q = r.result := by
    intro r h
    simp [get_metric_value, h]
  have hjson_none : (∀ r ∈ l, r.name ≠ some q) →
      get_metric_value (Metrics.json l) q = none := by
    intro h
    have hf : l.find? (fun x => x.name == some q) = none :=
      List.find?_eq_none.mpr (fun x hx => by simpa using h x hx)
    simp [get_metric_value, hf]
  have hcsv_none : (∀ p ∈ m, p.1 ≠ q) →
      get_metric_value (Metrics.csv m) q = none := by
    intro h
    have hf : m.find? (fun p => p.1 == q) = none :=
      List.find?_eq_none.mpr (fun x hx => by simpa using h x hx)
    simp [get_metric_value, hf]
  refine ⟨hjson_first, hjson_none, csv_lookup m q, hcsv_none,
    fun h1 h2 => ⟨hjson_none h1, hcsv_none h2⟩, fun v r hfind hres hv hnd => ?_⟩
  exact ⟨hres ▸ hjson_first r hfind, csv_lookup m q v hv hnd⟩

/-- Witness for C8: the doctest metric set in both shapes returns the same
value, and an absent name returns absent on both. -/
theorem get_metric_value_shapes_witness :
    (get_metric_value (Metrics.json [⟨some "test", some (MetricValue.vStr "pass")⟩]) "test" =
        some (MetricValue.vStr "pass") ∧
      get_metric_value (Metrics.csv [("test", MetricValue.vStr "pass")]) "test" =
        some (MetricValue.vStr "pass")) ∧
    (get_metric_value (Metrics.json [⟨some "test", some (MetricValue.vStr "pass")⟩]) "other" =
        none ∧
      get_metric_value (Metrics.csv [("test", MetricValue.vStr "pass")]) "other" =
        none) :=
  ⟨(get_metric_value_shapes [⟨some "test", some (MetricValue.vStr "pass")⟩]
      [("test", MetricValue.vStr "pass")] "test").2.2.2.2.2
      (MetricValue.vStr "pass") ⟨some "test", some (MetricValue.vStr "pass")⟩
      rfl rfl (List.Mem.head _) (by decide),
    (get_metric_value_shapes [⟨some "test", some (MetricValue.vStr "pass")⟩]
      [("test", MetricValue.vStr "pass")] "other").2.2.2.2.1
      (by decide) (by decide)⟩

/-- C9: the ecosystem detector returns the first ecosystem of the fixed table
order (python, node, java-maven, java-gradle, r, rust, go) whose marker set
has a file present, and "unknown" when no marker is present; a root with only
go.mod detects as go, and of two matching ecosystems the earlier wins. -/
theorem detect_project_type_table (fs : List String) :
    (detect_project_type fs =
      if fs.contains "requirements.txt" || fs.contains "setup.py" ||
          fs.contains "pyproject.toml" then "python"
      else if fs.contains "package.json" then "node"
      else if fs.contains "pom.xml" then "java-maven"
      else if fs.contains "build.gradle" then "java-gradle"
      else if fs.contains "DESCRIPTION" then "r"
      else if fs.contains "Cargo.toml" then "rust"
      else if fs.contains "go.mod" then "go"
      else "unknown") ∧
    detect_project_type ["go.mod"] = "go" ∧
    detect_project_type [] = "unknown" ∧
    detect_project_type ["go.mod", "package.json"] = "node" := by
  refine ⟨?_, rfl, rfl, rfl⟩
  split_ifs with h1 h2 h3 h4 h5 h6 h7 <;>
    simp only [detect_project_type, project_files]
  · rw [List.find?_cons_of_pos _ (by simpa [or_assoc, and_assoc] using h1)]
  · rw [List.find?_cons_of_neg _ (by simpa [or_assoc, and_assoc] using h1),
      List.find?_cons_of_pos _ (by simpa using h2)]
  · rw [List.find?_cons_of_neg _ (by simpa [or_assoc, and_assoc] using h1),
      List.find?_cons_of_neg _ (by simpa using h2),
      List.find?_cons_of_pos _ (by simpa using h3)]
  · rw [List.find?_cons_of_neg _ (by simpa [or_assoc, and_assoc] using h1),
      List.find?_cons_of_neg _ (by simpa using h2),
      List.find?_cons_of_neg _ (by simpa using h3),
      List.find?_cons_of_pos _ (by simpa using h4)]
  · rw [List.find?_cons_of_neg _ (by simpa [or_assoc, and_assoc] using h1),
      List.find?_cons_of_neg _ (by simpa using h2),
      List.find?_cons_of_neg _ (by simpa using h3),
      List.find?_cons_of_neg _ (by simpa using h4),
      List.find?_cons_of_pos _ (by simpa using h5)]
  · rw [List.find?_cons_of_neg _ (by simpa [or_assoc, and_assoc] using h1),
      List.find?_cons_of_neg _ (by simpa using h2),
      List.find?_cons_of_neg _ (by simpa using h3),
      List.find?_cons_of_neg _ (by simpa using h4),
      List.find?_cons_of_neg _ (by simpa using h5),
      List.find?_cons_of_pos _ (by simpa using h6)]
  · rw [List.find?_cons_of_neg _ (by simpa [or_assoc, and_assoc] using h1),
      List.find?_cons_of_neg _ (by simpa using h2),
      List.find?_cons_of_neg _ (by simpa using h3),
      List.find?_cons_of_neg _ (by simpa using h4),
      List.find?_cons_of_neg _ (by simpa using h5),
      List.find?_cons_of_neg _ (by simpa using h6),
      List.find?_cons_of_pos _ (by simpa using h7)]
  · rw [List.find?_cons_of_neg _ (by simpa [or_assoc, and_assoc] using h1),
      List.find?_cons_of_neg _ (by simpa using h2),
      List.find?_cons_of_neg _ (by simpa using h3),
      List.find?_cons_of_neg _ (by simpa using h4),
      List.find?_cons_of_neg _ (by simpa using h5),
      List.find?_cons_of_neg _ (by simpa using h6),
      List.find?_cons_of_neg _ (by simpa using h7)]
    rfl

/-- The coarse node-output scan never changes the status field. -/
theorem nodeFold_status (lines : List String) : ∀ a : TestResultRec,
    (lines.foldl nodeScanStep a).status = a.status := by
  induction lines with
  | nil => intro a; rfl
  | cons x xs ih =>
      intro a
      rw [List.foldl_cons, ih]
      unfold nodeScanStep
      split_ifs <;> rfl

/-- C10: on the reached `npm test` path, the node adapter's status is decided
solely by the exit code: code zero gives PASS even when the textual scan
counts failing lines (status PASS with failed > 0 is possible), and a
nonzero code gives FAIL with zero counts since no lines are scanned. -/
theorem run_node_tests_exitcode (fs : List String) (w : NodeWorld)
    (hpkg : fs.contains "package.json" = true) (hinst : w.installRaises = false) :
    ((w.returncode = 0 → (run_node_tests fs w).status = "PASS") ∧
     (w.returncode ≠ 0 →
       run_node_tests fs w =
         { framework := "unknown", status := "FAIL", total_tests := 0, passed := 0,
           failed := 0, output := String.intercalate "\n" w.stdout_lines,
           error := w.stderr })) ∧
    ((run_node_tests ["package.json"] ⟨false, "", ["1 failing"], "", 0⟩).status = "PASS" ∧
     (run_node_tests ["package.json"] ⟨false, "", ["1 failing"], "", 0⟩).failed = 1) := by
  refine ⟨⟨fun hrc => ?_, fun hrc => ?_⟩, by decide⟩
  · simp only [run_node_tests]
    rw [if_neg (by rw [hpkg]; simp), if_neg (by simp [hinst]), if_pos hrc,
      nodeFold_status]
  · simp only [run_node_tests]
    rw [if_neg (by rw [hpkg]; simp), if_neg (by simp [hinst]), if_neg hrc]

/-- Witness for C10: a zero exit code with a passing line yields PASS. -/
theorem run_node_tests_exitcode_witness :
    (run_node_tests ["package.json"] ⟨false, "", ["2 passing"], "", 0⟩).status = "PASS" :=
  ((run_node_tests_exitcode ["package.json"] ⟨false, "", ["2 passing"], "", 0⟩
      rfl rfl).1).1 rfl

/-- Witness for C1 at concrete records: 9/10 passing is GOOD with score 1,
and a zero-test record scores 0. -/
theorem analyze_test_results_thresholds_witness :
    ((analyze_test_results (some ⟨"pytest", "PASS", 10, 9, 1, "", ""⟩)).status = Status.GOOD ∧
      (analyze_test_results (some ⟨"pytest", "PASS", 10, 9, 1, "", ""⟩)).score = 1) ∧
    ((analyze_test_results (some ⟨"pytest", "FAIL", 0, 0, 0, "", ""⟩)).status =
        Status.NEEDS_IMPROVEMENT ∧
      (analyze_test_results (some ⟨"pytest", "FAIL", 0, 0, 0, "", ""⟩)).score = 0) :=
  ⟨(analyze_test_results_thresholds ⟨"pytest", "PASS", 10, 9, 1, "", ""⟩).1
      (by norm_num) |>.1 (by norm_num),
    (analyze_test_results_thresholds ⟨"pytest", "FAIL", 0, 0, 0, "", ""⟩).2 rfl⟩

end CCKP
